import Mathlib

/-!
Verification of `simple_imdb_user_review_crawler/_imdb_user_review_crawler.py`.

This file gives a shallow embedding of the crawler's core: the field
extractor `parse_raw_item_to_imdb_user_review`, the page parser
`parse_raw_html_to_imdb_user_review_set_and_more_data`, and the pagination
driver `crawl_imdb_user_reviews_by_title_id`. HTML documents are modelled
as an explicit node tree (the lxml collaborator's output), the lxml XPath
queries used by the source are modelled over that tree, Python exceptions
are modelled with `Except`, and the process-wide `locale.LC_TIME` state
mutated by `locale.setlocale` is threaded explicitly as a `String`.
All definitions are structural so that closed instances evaluate by `rfl`
or `decide`.
-/

/-- Whitespace set stripped by Python's `str.strip` (ASCII part). -/
def isPyWs (c : Char) : Bool :=
  c = ' ' || c = '\t' || c = '\n' || c = '\r' || c = '\x0b' || c = '\x0c'

/-- Whitespace set of Python's `re` class `\s` (ASCII part), used by the
source's compiled regexes and by `datetime.strptime` format whitespace. -/
def isReWs (c : Char) : Bool :=
  c = ' ' || c = '\t' || c = '\n' || c = '\r' || c = '\x0b' || c = '\x0c'

/-- Whitespace set of the XPath `normalize-space` function. -/
def isXmlWs (c : Char) : Bool :=
  c = ' ' || c = '\t' || c = '\n' || c = '\r'

/-- Decimal digit test, as matched by the source's regex class `\d` on
ASCII input. -/
def isDigitCh (c : Char) : Bool :=
  48 ≤ c.toNat && c.toNat ≤ 57

/-- ASCII lower-casing of one character, for the source's
case-insensitive regex matching (`re.IGNORECASE`). -/
def lowerChar (c : Char) : Char :=
  if 65 ≤ c.toNat && c.toNat ≤ 90 then Char.ofNat (c.toNat + 32) else c

/-- Strip characters satisfying `p` from both ends of a character list. -/
def stripCharsBy (p : Char → Bool) (cs : List Char) : List Char :=
  ((cs.dropWhile p).reverse.dropWhile p).reverse

/-- Model of Python's `str.strip()` on ASCII text. -/
def pyStrip (s : String) : String :=
  String.mk (stripCharsBy isPyWs s.toList)

/-- Split a character list into maximal runs of characters not satisfying
`p`, discarding the separators; the accumulator holds the current run
reversed. -/
def splitRunsAux (p : Char → Bool) : List Char → List Char → List (List Char)
  | [], cur => if cur.isEmpty then [] else [cur.reverse]
  | c :: cs, cur =>
    if p c then
      if cur.isEmpty then splitRunsAux p cs []
      else cur.reverse :: splitRunsAux p cs []
    else splitRunsAux p cs (c :: cur)

/-- Words of a string under a whitespace predicate. -/
def wordsBy (p : Char → Bool) (s : String) : List String :=
  (splitRunsAux p s.toList []).map String.mk

/-- Join a list of strings with a separator. -/
def joinSep (sep : String) : List String → String
  | [] => ""
  | [x] => x
  | x :: y :: rest => x ++ sep ++ joinSep sep (y :: rest)

/-- Concatenate a list of strings; models Python's `"".join`. -/
def joinAll (l : List String) : String :=
  joinSep "" l

/-- Numeric value of a list of decimal digit characters. -/
def digitsToNat (cs : List Char) : Nat :=
  cs.foldl (fun n c => n * 10 + (c.toNat - 48)) 0

/-- Decimal digit character for a value below ten. -/
def digitChar48 (n : Nat) : Char :=
  Char.ofNat (48 + n)

/-- Decimal digits of a natural number, fuel-based so that it reduces in
the kernel. -/
def natDigitsAux : Nat → Nat → List Char
  | 0, _ => []
  | fuel + 1, n =>
    if n < 10 then [digitChar48 n]
    else natDigitsAux fuel (n / 10) ++ [digitChar48 (n % 10)]

/-- Decimal rendering of a natural number. -/
def natToStr (n : Nat) : String :=
  String.mk (natDigitsAux (n + 1) n)

/-- Zero-padded decimal rendering, as produced by `date.isoformat`. -/
def padNum (width n : Nat) : String :=
  let s := natDigitsAux (n + 1) n
  String.mk (List.replicate (width - s.length) '0' ++ s)

/-- Substring test on character lists. -/
def charListInfix (pat : List Char) : List Char → Bool
  | [] => pat.isEmpty
  | c :: cs => pat.isPrefixOf (c :: cs) || charListInfix pat cs

/-- Model of the XPath `normalize-space` function: strip leading and
trailing whitespace and collapse internal whitespace runs to one space. -/
def normalizeSpace (s : String) : String :=
  joinSep " " (wordsBy isXmlWs s)

/-- Model of Python's `str.split(sep)` with a one-character separator,
used by the source as `content.split("\n")`; empty pieces are kept. -/
def splitOnChar (sep : Char) : List Char → List String
  | [] => [""]
  | c :: cs =>
    if c = sep then "" :: splitOnChar sep cs
    else
      match splitOnChar sep cs with
      | [] => [String.mk [c]]
      | piece :: rest => (String.mk [c] ++ piece) :: rest

/-- Model of Python's built-in `int()` applied to a string: surrounding
whitespace stripped, optional sign, then a nonempty run of decimal digits
(digit-group underscores are not modelled). Returns `none` where `int()`
raises `ValueError`. -/
def pyInt (s : String) : Option Int :=
  match stripCharsBy isPyWs s.toList with
  | [] => none
  | '-' :: ds =>
    if !ds.isEmpty && ds.all isDigitCh then some (-(digitsToNat ds : Int)) else none
  | '+' :: ds =>
    if !ds.isEmpty && ds.all isDigitCh then some ((digitsToNat ds : Int)) else none
  | ds =>
    if ds.all isDigitCh then some ((digitsToNat ds : Int)) else none

mutual
/-- Model of an lxml document node: an element with tag, attribute list
and children, or a text node. Attribute lookup uses the first occurrence,
matching lxml's attribute dictionary. -/
inductive Node where
  | text : String → Node
  | elem : String → List (String × String) → NodeList → Node
/-- Children of an element, as a dedicated list type so that all tree
recursions are structural and reduce in the kernel. -/
inductive NodeList where
  | nil : NodeList
  | cons : Node → NodeList → NodeList
end

/-- Build a `NodeList` from an ordinary list. -/
def nodesOf : List Node → NodeList
  | [] => .nil
  | n :: ns => .cons n (nodesOf ns)

/-- Attribute dictionary lookup (`node.attrib[key]` presence). -/
def attrLookup : List (String × String) → String → Option String
  | [], _ => none
  | (k, v) :: rest, key => if k = key then some v else attrLookup rest key

/-- Value of an attribute as seen by XPath's `@attr`: the empty string
when the attribute is absent. -/
def attrText (attrs : List (String × String)) (key : String) : String :=
  match attrLookup attrs key with
  | some v => v
  | none => ""

/-- Model of `valid_value_from_dict` (source lines 111-116) instantiated
at string dictionaries: the stored value when the key is present and the
value truthy (nonempty), `none` otherwise. -/
def valid_value_from_dict (attrs : List (String × String)) (key : String) :
    Option String :=
  match attrLookup attrs key with
  | some v => if v = "" then none else some v
  | none => none

/-- Whitespace-tolerant token containment test generated by
`xpath_descendant_contains_target_attribute_builder` (source lines 67-92):
`contains(concat(" ", normalize-space(@attribute), " "), " target ")`. -/
def attrContainsToken (attrs : List (String × String))
    (attrName target : String) : Bool :=
  charListInfix (" " ++ target ++ " ").toList
    (" " ++ normalizeSpace (attrText attrs attrName) ++ " ").toList

/-- Node predicate for the builder's queries: element tag equals
`node_type` and the `attribute` value contains `target` as a
whitespace-separated token. -/
def builderPred (node_type attrName target : String)
    (tag : String) (attrs : List (String × String)) : Bool :=
  tag = node_type && attrContainsToken attrs attrName target

mutual
/-- Matches of the builder's element query among the strict descendants
of a node, in document order, each paired with its preceding sibling
element (lxml's `getprevious()`, `none` when there is none). -/
def Node.findMatches (pred : String → List (String × String) → Bool) :
    Node → List (Option Node × Node)
  | .text _ => []
  | .elem _ _ cs => NodeList.findMatches pred none cs
/-- Scan of a sibling list for `Node.findMatches`, carrying the most
recent preceding sibling element. -/
def NodeList.findMatches (pred : String → List (String × String) → Bool)
    (prev : Option Node) : NodeList → List (Option Node × Node)
  | .nil => []
  | .cons c cs =>
    match c with
    | .text _ => NodeList.findMatches pred prev cs
    | .elem tag attrs _ =>
      (if pred tag attrs then [(prev, c)] else [])
        ++ Node.findMatches pred c
        ++ NodeList.findMatches pred (some c) cs
end

mutual
/-- Text nodes selected by the builder's query with
`retrieve_texts=True` (`...//text()`): every text node, in document
order, having a strictly enclosing element that matches `pred` and is a
strict descendant of the context node. The `inside` flag records whether
an enclosing match has been seen. -/
def Node.textsUnder (pred : String → List (String × String) → Bool)
    (inside : Bool) : Node → List String
  | .text s => if inside then [s] else []
  | .elem tag attrs cs =>
    NodeList.textsUnder pred (inside || pred tag attrs) cs
/-- Sibling-list traversal for `Node.textsUnder`. -/
def NodeList.textsUnder (pred : String → List (String × String) → Bool)
    (inside : Bool) : NodeList → List String
  | .nil => []
  | .cons c cs =>
    (match c with
     | .text s => if inside then [s] else []
     | .elem tag attrs cs' =>
       NodeList.textsUnder pred (inside || pred tag attrs) cs')
      ++ NodeList.textsUnder pred inside cs
end

/-- Result of the builder's query with `retrieve_texts=True`, run from a
context node (the matched elements are strict descendants, as with the
descendant axis). -/
def xpathTexts (pred : String → List (String × String) → Bool)
    (ctx : Node) : List String :=
  match ctx with
  | .text _ => []
  | .elem _ _ cs => NodeList.textsUnder pred false cs

mutual
/-- Elements selected by the source's nested query
`...display-name-date...]/.//a[string(@href)]`: elements matching
`predB`, in document order, strictly inside an element matching `predA`
which is itself a strict descendant of the context node. -/
def Node.nestedMatches (predA predB : String → List (String × String) → Bool)
    (inside : Bool) : Node → List Node
  | .text _ => []
  | .elem tag attrs cs =>
    NodeList.nestedMatches predA predB (inside || predA tag attrs) cs
/-- Sibling-list traversal for `Node.nestedMatches`. -/
def NodeList.nestedMatches
    (predA predB : String → List (String × String) → Bool)
    (inside : Bool) : NodeList → List Node
  | .nil => []
  | .cons c cs =>
    (match c with
     | .text _ => []
     | .elem tag attrs cs' =>
       (if inside && predB tag attrs then [c] else [])
         ++ NodeList.nestedMatches predA predB (inside || predA tag attrs) cs')
      ++ NodeList.nestedMatches predA predB inside cs
end

/-- Run the nested query from a context node. -/
def xpathNested (predA predB : String → List (String × String) → Bool)
    (ctx : Node) : List Node :=
  match ctx with
  | .text _ => []
  | .elem _ _ cs => NodeList.nestedMatches predA predB false cs

/-- Model of lxml's `element.text`: the text immediately after the start
tag, that is, the leading text child; `none` when the element starts with
a child element or is empty (lxml reports `None` there). -/
def Node.lxmlText : Node → Option String
  | .elem _ _ (.cons (.text s) _) => some s
  | _ => none

/-- Attributes of an element node; a text node has none. -/
def Node.attribs : Node → List (String × String)
  | .elem _ attrs _ => attrs
  | .text _ => []

/-- Greedy-first alternatives of the sub-pattern `(,\d{3})*` of
`FOUND_HELPFUL_REGEX` starting from an already-matched group part `g`:
each alternative is the extended group text with the remaining input,
longer extensions first, as the regex engine would try them. -/
def starCommaAlts : List Char → List Char → List (List Char × List Char)
  | g, ',' :: a :: b :: c :: r =>
    if isDigitCh a && isDigitCh b && isDigitCh c then
      starCommaAlts (g ++ [',', a, b, c]) r ++ [(g, ',' :: a :: b :: c :: r)]
    else [(g, ',' :: a :: b :: c :: r)]
  | g, rest => [(g, rest)]

/-- Greedy-first alternatives of the group pattern `\d{1,3}(,\d{3})*`
used for both named groups of `FOUND_HELPFUL_REGEX`. -/
def numGroupAlts (cs : List Char) : List (List Char × List Char) :=
  let d3 :=
    match cs with
    | a :: b :: c :: r =>
      if isDigitCh a && isDigitCh b && isDigitCh c then [([a, b, c], r)] else []
    | _ => []
  let d2 :=
    match cs with
    | a :: b :: r =>
      if isDigitCh a && isDigitCh b then [([a, b], r)] else []
    | _ => []
  let d1 :=
    match cs with
    | a :: r => if isDigitCh a then [([a], r)] else []
    | _ => []
  ((d3 ++ d2 ++ d1).map (fun gr => starCommaAlts gr.1 gr.2)).flatten

/-- Match `\s+` : require at least one regex-whitespace character, then
consume the whole run (the following pattern parts never start with
whitespace, so the greedy run is the only viable one). -/
def wsPlus : List Char → Option (List Char)
  | c :: cs => if isReWs c then some ((c :: cs).dropWhile isReWs) else none
  | [] => none

/-- Case-insensitive literal match (the source compiles
`FOUND_HELPFUL_REGEX` with `re.IGNORECASE`); the pattern is given in
lowercase characters. -/
def matchLitCI : List Char → List Char → Option (List Char)
  | [], cs => some cs
  | _ :: _, [] => none
  | p :: ps, c :: cs => if lowerChar c = p then matchLitCI ps cs else none

/-- Tail of `FOUND_HELPFUL_REGEX` after the `helpful` group:
`\s+out\s+of\s+(?P<total>\d{1,3}(,\d{3})*)\s+found\s+this\s+helpful.*`;
returns the `total` group text. The trailing `.*` always succeeds under
`re.match`. -/
def matchFoundHelpfulTail (cs : List Char) : Option (List Char) := do
  let r1 ← wsPlus cs
  let r2 ← matchLitCI ['o', 'u', 't'] r1
  let r3 ← wsPlus r2
  let r4 ← matchLitCI ['o', 'f'] r3
  let r5 ← wsPlus r4
  (numGroupAlts r5).findSome? fun (total, r6) => do
    let r7 ← wsPlus r6
    let r8 ← matchLitCI ['f', 'o', 'u', 'n', 'd'] r7
    let r9 ← wsPlus r8
    let r10 ← matchLitCI ['t', 'h', 'i', 's'] r9
    let r11 ← wsPlus r10
    let _ ← matchLitCI ['h', 'e', 'l', 'p', 'f', 'u', 'l'] r11
    some total

/-- Model of `FOUND_HELPFUL_REGEX.match` (source lines 24-30):
`\D*(?P<helpful>\d{1,3}(,\d{3})*)\s+out\s+of\s+(?P<total>\d{1,3}(,\d{3})*)`
`\s+found\s+this\s+helpful.*` with `re.IGNORECASE`. The leading `\D*`
can only stop at the first digit (shorter matches leave a non-digit under
`\d`), so it is taken deterministically; both groups backtrack greedily.
Returns the `(helpful, total)` group texts on a match. -/
def matchFoundHelpful (s : String) : Option (String × String) :=
  let afterD := s.toList.dropWhile (fun c => !isDigitCh c)
  (numGroupAlts afterD).findSome? fun (helpful, rest) =>
    (matchFoundHelpfulTail rest).map fun total =>
      (String.mk helpful, String.mk total)

/-- Model of `MAXIMUM_RATING_REGEX.match` (source line 31):
`\D*/(?P<maximum_rating>\d+)\D*` under `re.match`. The pattern matches
exactly when the input has a digit and the character right before its
first digit is a slash (`\D*` cannot cross a digit, the slash must
immediately precede `\d+`, and the trailing `\D*` may be empty since
`re.match` does not anchor the end); the group is then the maximal digit
run from the first digit. -/
def matchMaximumRating (s : String) : Option String :=
  let cs := s.toList
  let pre := cs.takeWhile (fun c => !isDigitCh c)
  let post := cs.dropWhile (fun c => !isDigitCh c)
  match post with
  | [] => none
  | _ :: _ =>
    match pre.getLast? with
    | some '/' => some (String.mk (post.takeWhile isDigitCh))
    | _ => none

/-- Lowercase month names of the C locale, as matched by
`datetime.strptime`'s `%B` directive after the source sets
`locale.LC_TIME` to `"C"`. -/
def monthNames : List String :=
  ["january", "february", "march", "april", "may", "june", "july",
   "august", "september", "october", "november", "december"]

/-- One-based index of a month name, compared case-insensitively as
CPython's `_strptime` does. -/
def monthIndexAux (tok : String) : List String → Nat → Option Nat
  | [], _ => none
  | m :: ms, i => if tok = m then some i else monthIndexAux tok ms (i + 1)

/-- Month number for a `%B` token. -/
def monthIndex (tok : String) : Option Nat :=
  monthIndexAux (String.mk (tok.toList.map lowerChar)) monthNames 1

/-- Day-of-month token as accepted by strptime's `%d` directive, whose
regex is `3[01]|[12]\d|0[1-9]|[1-9]`: one or two digits with value 1-31
and no lone or double zero. -/
def dayToken (tok : String) : Option Nat :=
  let cs := tok.toList
  if cs.all isDigitCh && (cs.length = 1 || cs.length = 2)
      && 1 ≤ digitsToNat cs && digitsToNat cs ≤ 31 then
    some (digitsToNat cs)
  else none

/-- Year token as accepted by strptime's `%Y` directive (exactly four
digits); `datetime` additionally requires the year to be at least 1. -/
def yearToken (tok : String) : Option Nat :=
  let cs := tok.toList
  if cs.all isDigitCh && cs.length = 4 && 1 ≤ digitsToNat cs then
    some (digitsToNat cs)
  else none

/-- Gregorian leap-year rule used by `datetime.date`. -/
def isLeap (y : Nat) : Bool :=
  y % 4 = 0 && (y % 100 ≠ 0 || y % 400 = 0)

/-- Length of a month, used by `datetime`'s day-range validation. -/
def daysInMonth (y m : Nat) : Nat :=
  if m = 2 then (if isLeap y then 29 else 28)
  else if m = 4 || m = 6 || m = 9 || m = 11 then 30
  else 31

/-- Model of `datetime.strptime(input, "%d %B %Y")` in the C locale
(source lines 154-157): format whitespace matches `\s+`, the whole input
must be consumed, and the resulting day must exist in the resulting
month. Returns `(year, month, day)`, or `none` where strptime or the
`datetime` constructor raises `ValueError`. -/
def strptime_d_B_Y (s : String) : Option (Nat × Nat × Nat) := do
  match wordsBy isReWs s with
  | [dTok, mTok, yTok] =>
    let d ← dayToken dTok
    let m ← monthIndex mTok
    let y ← yearToken yTok
    if d ≤ daysInMonth y m then some (y, m, d) else none
  | _ => none

/-- Model of `date(...).isoformat()` (source lines 158-162). -/
def isoDate (y m d : Nat) : String :=
  padNum 4 y ++ "-" ++ padNum 2 m ++ "-" ++ padNum 2 d

/-- The `IMDbUserReview` frozen dataclass (source lines 35-64). The
extractor initialises every extracted field to `None`, so fields the
class annotates as `str`/`int` can in fact hold `None`; they are modelled
as `Option`. Value equality and hashing over all fields gives the
deduplicating set semantics. -/
structure IMDbUserReview where
  review_id : Option String
  review_date : Option String
  review_title : Option String
  title_id : String
  title_name : Option String
  title_relative_url : Option String
  total_feedback : Option Nat
  helpful_feedback : Option Nat
  maximum_rating : Option Nat
  user_rating : Option Int
  has_spoilers : Bool
  user_name : Option String
  user_relative_url : Option String
  content : Option String
deriving DecidableEq

/-- Model of `build_queryless_url_str_from_str` (source lines 106-108):
`yarl.URL(input_str).with_query(None)` removes the query component of a
relative URL, keeping the path and any fragment. -/
def build_queryless_url_str_from_str (input_str : String) : String :=
  let cs := input_str.toList
  let beforeQuery := cs.takeWhile (fun c => c ≠ '?')
  let afterQuery := cs.dropWhile (fun c => c ≠ '?')
  String.mk (beforeQuery ++ afterQuery.dropWhile (fun c => c ≠ '#'))

/-- Model of `normalize_text` (source lines 95-103): strip each raw
fragment, drop the empty ones, join the rest with newlines. -/
def normalize_text (raw_str_list : List String) : String :=
  joinSep "\n" ((raw_str_list.map pyStrip).filter (fun s => s ≠ ""))

/-- Review-date block of the extractor (source lines 145-162). When a
`span.review-date` text is found the source first sets the process
`LC_TIME` locale to `"C"` and then parses with
`strptime(text.strip(), "%d %B %Y")`, which raises `ValueError` on
failure; the second component is the resulting locale state. -/
def date_step (lc_time : String) (raw_item_data : Node) :
    Except String (Option String) × String :=
  match xpathTexts (builderPred "span" "class" "review-date") raw_item_data with
  | [] => (.ok none, lc_time)
  | s :: _ =>
    match strptime_d_B_Y (pyStrip s) with
    | some ymd => (.ok (some (isoDate ymd.1 ymd.2.1 ymd.2.2)), "C")
    | none => (.error "ValueError", "C")

/-- Helpful-feedback block of the extractor (source lines 175-198),
returning `(total_feedback, helpful_feedback)`; thousands separators are
removed before conversion. -/
def feedback_step (raw_item_data : Node) : Option Nat × Option Nat :=
  match xpathTexts (builderPred "div" "class" "actions") raw_item_data with
  | [] => (none, none)
  | t :: ts =>
    match matchFoundHelpful (joinAll (t :: ts)) with
    | some ht =>
      (some (digitsToNat (ht.2.toList.filter (fun c => c ≠ ','))),
       some (digitsToNat (ht.1.toList.filter (fun c => c ≠ ','))))
    | none => (none, none)

/-- Rating block of the extractor (source lines 209-234), returning
`(user_rating, maximum_rating)`. The source takes the first
`span.point-scale` match, reads `getprevious().text` — an
`AttributeError` when there is no preceding sibling element or it has no
leading text — converts it with `int()` (`ValueError` on failure), runs
`MAXIMUM_RATING_REGEX` on the match's own text (`TypeError` when that
text is `None`), and finally clears both values if either is falsy. -/
def rating_step (raw_item_data : Node) : Except String (Option Int × Option Nat) :=
  match Node.findMatches (builderPred "span" "class" "point-scale") raw_item_data with
  | [] => .ok (none, none)
  | (prevSibling, node) :: _ =>
    match prevSibling with
    | none => .error "AttributeError"
    | some user_rating_node =>
      match user_rating_node.lxmlText with
      | none => .error "AttributeError"
      | some prevText =>
        match pyInt (pyStrip prevText) with
        | none => .error "ValueError"
        | some user_rating =>
          match node.lxmlText with
          | none => .error "TypeError"
          | some maxText =>
            match (matchMaximumRating maxText).map (fun g => digitsToNat g.toList) with
            | none => .ok (none, none)
            | some maximum_rating =>
              if user_rating == 0 || maximum_rating == 0 then .ok (none, none)
              else .ok (some user_rating, some maximum_rating)

/-- Predicate of the query step `a[string(@href)]` (source line 244):
anchor elements with a nonempty `href` attribute value. -/
def hrefAnchorPred (tag : String) (attrs : List (String × String)) : Bool :=
  tag = "a" && attrText attrs "href" ≠ ""

/-- Author block of the extractor (source lines 236-257), returning
`(user_name, user_relative_url)`. A first matching anchor without leading
text makes `normalize_text([None])` raise `AttributeError`. -/
def user_step (raw_item_data : Node) : Except String (Option String × Option String) :=
  match xpathNested (builderPred "div" "class" "display-name-date") hrefAnchorPred
      raw_item_data with
  | [] => .ok (none, none)
  | node :: _ =>
    match node.lxmlText with
    | none => .error "AttributeError"
    | some t =>
      match valid_value_from_dict node.attribs "href" with
      | none => .error "AttributeError"
      | some raw_user_relative_url =>
        .ok (some (normalize_text [t]),
             some (build_queryless_url_str_from_str (pyStrip raw_user_relative_url)))

/-- Locale-independent remainder of the extractor after the review-date
block: the review id (source lines 138-143), review title (164-173),
helpful feedback, spoiler flag, rating pair, author block, and content
(175-287), assembled into the returned record. -/
def item_rest_step (review_date : Option String) (title_id : String)
    (title_name title_relative_url : Option String)
    (review_content_as_single_line : Bool) (raw_item_data : Node) :
    Except String IMDbUserReview :=
  match rating_step raw_item_data with
  | .error e => .error e
  | .ok rating =>
    match user_step raw_item_data with
    | .error e => .error e
    | .ok user =>
      .ok {
        review_id :=
          (valid_value_from_dict raw_item_data.attribs "data-review-id").map
            pyStrip
        review_date := review_date
        review_title :=
          match xpathTexts (builderPred "a" "class" "title") raw_item_data with
          | [] => none
          | t :: ts => some (normalize_text (t :: ts))
        title_id := title_id
        title_name := title_name
        title_relative_url := title_relative_url
        total_feedback := (feedback_step raw_item_data).1
        helpful_feedback := (feedback_step raw_item_data).2
        maximum_rating := rating.2
        user_rating := rating.1
        has_spoilers :=
          !(Node.findMatches (builderPred "span" "class" "spoiler-warning")
              raw_item_data).isEmpty
        user_name := user.1
        user_relative_url := user.2
        content :=
          match xpathTexts (builderPred "div" "class" "text") raw_item_data with
          | [] => none
          | t :: ts =>
            some (if review_content_as_single_line then
                    joinSep " " (splitOnChar '\n' (normalize_text (t :: ts)).toList)
                  else normalize_text (t :: ts)) }

/-- Model of `parse_raw_item_to_imdb_user_review` (source lines 119-287).
The first component is the produced record, or the Python exception the
source would raise; the second component is the process `LC_TIME` locale
state after the call, threaded from `lc_time`. Only the review-date block
touches the locale, so the final locale is exactly the one `date_step`
leaves and the rest of the extraction is `item_rest_step`. -/
def parse_raw_item_to_imdb_user_review (lc_time : String) (title_id : String)
    (title_name title_relative_url : Option String)
    (review_content_as_single_line : Bool) (raw_item_data : Node) :
    Except String IMDbUserReview × String :=
  (match (date_step lc_time raw_item_data).1 with
   | .error e => .error e
   | .ok review_date =>
     item_rest_step review_date title_id title_name title_relative_url
       review_content_as_single_line raw_item_data,
   (date_step lc_time raw_item_data).2)

/-- The `title_data` dictionary filled by the page parser (source lines
299, 324-325): each entry is present exactly when it was stored. -/
structure TitleData where
  title_name : Option String
  title_relative_url : Option String
deriving DecidableEq

/-- The `more_data` dictionary filled by the page parser (source lines
300, 353-361): a field is `some v` exactly when the corresponding
load-more attribute was present with a truthy value `v` (so never
`some ""`). -/
structure MoreData where
  data_key : Option String
  data_ajaxurl : Option String
deriving DecidableEq

/-- Python truthiness filter on an optional string, as applied by
`valid_value_from_dict` when the driver reads back `title_data` and
`more_data` entries. -/
def truthyOpt : Option String → Option String
  | none => none
  | some s => if s = "" then none else some s

/-- Python `set.add`: insert a value if not already present, modelled as
an insertion-ordered duplicate-free list. -/
def pySetAdd [DecidableEq α] (s : List α) (a : α) : List α :=
  if a ∈ s then s else s ++ [a]

/-- Python `set.update`: fold `pySetAdd` over the new elements. -/
def pySetUnion [DecidableEq α] (s t : List α) : List α :=
  t.foldl pySetAdd s

/-- Review loop of the page parser (source lines 335-344): each container
is fed to the field extractor in order, threading the locale state; a
raised exception propagates and aborts the remaining containers. -/
def parse_items (lc_time : String) (title_id : String)
    (title_name title_relative_url : Option String)
    (review_content_as_single_line : Bool) :
    List Node → Except String (List IMDbUserReview) × String
  | [] => (.ok [], lc_time)
  | n :: ns =>
    match parse_raw_item_to_imdb_user_review lc_time title_id title_name
        title_relative_url review_content_as_single_line n with
    | (.error e, lc') => (.error e, lc')
    | (.ok r, lc') =>
      match parse_items lc' title_id title_name title_relative_url
          review_content_as_single_line ns with
      | (.error e, lc'') => (.error e, lc'')
      | (.ok rs, lc'') => (.ok (r :: rs), lc'')

/-- Title-discovery block of the page parser (source lines 305-325),
returning the possibly updated `(title_name, title_relative_url)` pair
used for the page's reviews together with the `title_data` dictionary.
Runs only when both known values are falsy; a title anchor with no
leading text or no `href` raises `AttributeError`. -/
def title_step (title_name title_relative_url : Option String) (root : Node) :
    Except String (Option String × Option String × TitleData) :=
  if truthyOpt title_name = none ∧ truthyOpt title_relative_url = none then
    match Node.findMatches (builderPred "a" "itemprop" "url") root with
    | [] => .ok (title_name, title_relative_url, ⟨none, none⟩)
    | (_, node) :: _ =>
      match node.lxmlText with
      | none => .error "AttributeError"
      | some t =>
        match valid_value_from_dict node.attribs "href" with
        | none => .error "AttributeError"
        | some raw_title_relative_url =>
          let tn := normalize_text [t]
          let tru := build_queryless_url_str_from_str (pyStrip raw_title_relative_url)
          .ok (some tn, some tru, ⟨some tn, some tru⟩)
  else .ok (title_name, title_relative_url, ⟨none, none⟩)

/-- Model of `parse_raw_html_to_imdb_user_review_set_and_more_data`
(source lines 290-363). The document is taken as the already-parsed lxml
tree (`html.fromstring` delegates byte decoding to the markup parser
collaborator). The review set is an insertion-ordered duplicate-free
list. The locale state is threaded through the per-item extractor
calls. -/
def parse_raw_html_to_imdb_user_review_set_and_more_data (lc_time : String)
    (title_id : String) (title_name title_relative_url : Option String)
    (review_content_as_single_line : Bool) (root : Node) :
    Except String (List IMDbUserReview × TitleData × MoreData) × String :=
  match title_step title_name title_relative_url root with
  | .error e => (.error e, lc_time)
  | .ok (tn, tru, title_data) =>
    let review_results :=
      (Node.findMatches (builderPred "div" "class" "imdb-user-review") root).map
        (fun pr => pr.2)
    match parse_items lc_time title_id tn tru review_content_as_single_line
        review_results with
    | (.error e, lc') => (.error e, lc')
    | (.ok items, lc') =>
      let valid_user_review_set := items.foldl pySetAdd []
      let more_data : MoreData :=
        match Node.findMatches (builderPred "div" "class" "load-more-data") root with
        | [] => ⟨none, none⟩
        | (_, node) :: _ =>
          ⟨valid_value_from_dict node.attribs "data-key",
           valid_value_from_dict node.attribs "data-ajaxurl"⟩
      (.ok (valid_user_review_set, title_data, more_data), lc')

/-- Structural model of a `yarl.URL` as used by the driver: fixed https
scheme left implicit, a host, a path, and an ordered query list. -/
structure Url where
  host : String
  path : String
  query : List (String × String)
deriving DecidableEq

/-- Model of `BASE_IMDB_URL` (source line 22). -/
def BASE_IMDB_URL : Url :=
  { host := "www.imdb.com", path := "/", query := [] }

/-- Model of `yarl.URL.with_path`: replaces the path and drops the
query. -/
def Url.with_path (u : Url) (p : String) : Url :=
  { host := u.host, path := p, query := [] }

/-- Model of `yarl.URL.with_query` with a dict argument: replaces the
query with the dict's insertion-ordered pairs. -/
def Url.with_query (u : Url) (q : List (String × String)) : Url :=
  { host := u.host, path := u.path, query := q }

/-- Model of `RELATIVE_IMDB_USER_REVIEWS_URL.format(title_id=title_id)`
(source lines 23, 396-397). -/
def relative_imdb_user_reviews_url (title_id : String) : String :=
  "/title/" ++ title_id ++ "/reviews"

/-- One scripted HTTP exchange: the status code and the response body as
the already-parsed document tree (the driver reads `response.content` and
`response.encoding` and hands them to the page parser, which is modelled
as receiving the parsed tree directly). -/
structure Response where
  status_code : Nat
  document : Node

/-- Mutable loop state of `crawl_imdb_user_reviews_by_title_id` (source
lines 383-404): the accumulated review set, the title data learned so
far, the learned load-more base URL, the URL of the next request, and the
threaded process locale state. The archive path, page counter and
request-throttle timestamps are omitted: they touch only the filesystem
and the wall clock and do not feed back into the record flow. -/
structure CrawlState where
  user_review_set : List IMDbUserReview
  title_name : Option String
  title_relative_url : Option String
  load_more_data_base_url : Option Url
  current_url : Url
  lc_time : String

/-- Result of a crawl run against a finite response script. `done` is the
loop leaving normally (`load_more_data = False`); `pending` means the
loop wants to issue one more request (carried as the URL it would fetch)
but the script is exhausted; `raised` is a propagated Python
exception. -/
inductive CrawlEnd where
  | done : List IMDbUserReview → CrawlEnd
  | pending : List IMDbUserReview → Url → CrawlEnd
  | raised : String → CrawlEnd
deriving DecidableEq

/-- One-iteration-per-response model of the driver's `while` loop (source
lines 406-486). Each iteration requests `current_url` (logged as the
first component), consumes the next scripted response, stops on a
400-599 status, parses otherwise (a parse exception propagates out of the
call), merges the page's records into the set, fills the title data once,
and decides continuation exactly as the source does. -/
def crawl_loop (title_id : String) (review_content_as_single_line : Bool)
    (st : CrawlState) : List Response → List Url × CrawlEnd
  | [] => ([], .pending st.user_review_set st.current_url)
  | resp :: rest =>
    if 400 ≤ resp.status_code ∧ resp.status_code < 600 then
      ([st.current_url], .done st.user_review_set)
    else
      match parse_raw_html_to_imdb_user_review_set_and_more_data st.lc_time
          title_id st.title_name st.title_relative_url
          review_content_as_single_line resp.document with
      | (.error e, _) => ([st.current_url], .raised e)
      | (.ok (current_user_review_set, new_title_data, more_data), lc') =>
        let user_review_set :=
          pySetUnion st.user_review_set current_user_review_set
        let new_title_name := truthyOpt new_title_data.title_name
        let title_name :=
          if (truthyOpt st.title_name).isNone && new_title_name.isSome then
            new_title_name
          else st.title_name
        let new_title_relative_url := truthyOpt new_title_data.title_relative_url
        let title_relative_url :=
          if (truthyOpt st.title_relative_url).isNone
              && new_title_relative_url.isSome then
            new_title_relative_url
          else st.title_relative_url
        match more_data with
        | ⟨none, none⟩ => ([st.current_url], .done user_review_set)
        | md =>
          match truthyOpt md.data_key with
          | none => ([st.current_url], .done user_review_set)
          | some data_key =>
            let new_data_ajaxurl := truthyOpt md.data_ajaxurl
            let load_more_data_base_url :=
              match st.load_more_data_base_url, new_data_ajaxurl with
              | none, some ajaxurl => some (BASE_IMDB_URL.with_path ajaxurl)
              | b, _ => b
            match load_more_data_base_url with
            | none => ([st.current_url], .done user_review_set)
            | some base_url =>
              let current_url := base_url.with_query
                [("ref_", "undefined"), ("paginationKey", data_key)]
              let tail := crawl_loop title_id review_content_as_single_line
                { user_review_set := user_review_set
                  title_name := title_name
                  title_relative_url := title_relative_url
                  load_more_data_base_url := some base_url
                  current_url := current_url
                  lc_time := lc' } rest
              (st.current_url :: tail.1, tail.2)

/-- Model of `crawl_imdb_user_reviews_by_title_id` (source lines 366-486)
run against a finite script of responses, starting from the initial
reviews URL for the title with empty accumulated state. -/
def crawl_imdb_user_reviews_by_title_id (title_id : String)
    (review_content_as_single_line : Bool) (lc_time : String)
    (responses : List Response) : List Url × CrawlEnd :=
  crawl_loop title_id review_content_as_single_line
    { user_review_set := []
      title_name := none
      title_relative_url := none
      load_more_data_base_url := none
      current_url :=
        BASE_IMDB_URL.with_path (relative_imdb_user_reviews_url title_id)
      lc_time := lc_time } responses

/-- Well-formed review container of the spec's single-page scenario:
`data-review-id="rv001"`, date text `12 March 2020`, adjacent rating
spans `8` and `/10`, and a `7 out of 9 found this helpful` actions
phrase. -/
def scenarioReviewItem : Node :=
  .elem "div"
    [("class", "lister-item imdb-user-review"), ("data-review-id", "rv001")]
    (nodesOf
      [.elem "span" [("class", "review-date")] (nodesOf [.text "12 March 2020"]),
       .elem "span" [("class", "rating-other-user-rating")] (nodesOf [.text "8"]),
       .elem "span" [("class", "point-scale")] (nodesOf [.text "/10"]),
       .elem "div" [("class", "actions text-muted")]
         (nodesOf [.text "7 out of 9 found this helpful"])])

/-- Single-page document holding exactly the scenario's one review
container. -/
def scenarioDocument : Node :=
  .elem "html" [] (nodesOf [.elem "body" [] (nodesOf [scenarioReviewItem])])

/-- Record the extractor produces for `scenarioReviewItem` when the title
name and relative URL are already known to the crawl. -/
def scenarioRecord : IMDbUserReview :=
  { review_id := some "rv001"
    review_date := some "2020-03-12"
    review_title := none
    title_id := "tt0000001"
    title_name := some "Some Title"
    title_relative_url := some "/title/tt0000001/"
    total_feedback := some 9
    helpful_feedback := some 7
    maximum_rating := some 10
    user_rating := some 8
    has_spoilers := false
    user_name := none
    user_relative_url := none
    content := none }

/-- Helper: whenever the rating block returns normally, the pair it
returns is either both `none` or both `some` of nonzero values (the
source's clear-both step, lines 231-234). -/
theorem rating_step_pair (item : Node) (u : Option Int) (m : Option Nat)
    (h : rating_step item = .ok (u, m)) : u = none ↔ m = none := by
  unfold rating_step at h
  repeat' split at h
  all_goals cases h
  all_goals simp

/-- Helper: the record part of the review-date block does not depend on
the incoming locale state (the source sets `LC_TIME` to `"C"` before the
only locale-sensitive operation). -/
theorem date_step_locale_free (lc₁ lc₂ : String) (item : Node) :
    (date_step lc₁ item).1 = (date_step lc₂ item).1 := by
  unfold date_step
  rcases hq : xpathTexts (builderPred "span" "class" "review-date") item with
    _ | ⟨s, rest⟩ <;> simp [hq]

/-- Helper: the review-date block leaves the locale untouched when no
review-date text node exists, and otherwise sets it to `"C"`. -/
theorem date_step_locale_write (lc_time : String) (item : Node) :
    (date_step lc_time item).2
      = (match xpathTexts (builderPred "span" "class" "review-date") item with
         | [] => lc_time
         | _ :: _ => "C") := by
  unfold date_step
  rcases hq : xpathTexts (builderPred "span" "class" "review-date") item with
    _ | ⟨s, rest⟩
  · simp [hq]
  · rcases hp : strptime_d_B_Y (pyStrip s) with _ | ymd <;> simp [hq, hp]

/-- C1: a single-page document with one well-formed review container
carrying `data-review-id="rv001"`, date text `12 March 2020`, rating
nodes `8` and `/10`, and a `7 out of 9 found this helpful` actions
phrase yields exactly one record, with `review_id = "rv001"`,
`review_date = "2020-03-12"`, `user_rating = 8`, `maximum_rating = 10`,
`helpful_feedback = 7` and `total_feedback = 9`. -/
theorem c1_single_page_scenario :
    parse_raw_html_to_imdb_user_review_set_and_more_data "C" "tt0000001"
      (some "Some Title") (some "/title/tt0000001/") false scenarioDocument
      = (.ok ([scenarioRecord], ⟨none, none⟩, ⟨none, none⟩), "C")
    ∧ scenarioRecord.review_id = some "rv001"
    ∧ scenarioRecord.review_date = some "2020-03-12"
    ∧ scenarioRecord.user_rating = some 8
    ∧ scenarioRecord.maximum_rating = some 10
    ∧ scenarioRecord.helpful_feedback = some 7
    ∧ scenarioRecord.total_feedback = some 9 :=
  ⟨rfl, rfl, rfl, rfl, rfl, rfl, rfl⟩

/-- C2: every record the field extractor actually produces has
`user_rating = none` exactly when `maximum_rating = none`; whenever
either side of the rating pair is missing or falsy the source clears
both before building the record. -/
theorem c2_rating_null_iff_produced (lc_time title_id : String)
    (title_name title_relative_url : Option String) (single : Bool)
    (item : Node) (r : IMDbUserReview) (lc' : String)
    (h : parse_raw_item_to_imdb_user_review lc_time title_id title_name
        title_relative_url single item = (.ok r, lc')) :
    (r.user_rating = none ↔ r.maximum_rating = none) := by
  unfold parse_raw_item_to_imdb_user_review at h
  rw [Prod.mk.injEq] at h
  obtain ⟨h, -⟩ := h
  rcases hd : (date_step lc_time item).1 with e | rd <;> rw [hd] at h
  · simp at h
  · unfold item_rest_step at h
    rcases hr : rating_step item with e | ⟨u, m⟩ <;> rw [hr] at h
    · simp at h
    · rcases hu : user_step item with e | us <;> rw [hu] at h
      · simp at h
      · simp only [Except.ok.injEq] at h
        subst h
        exact rating_step_pair item u m hr

/-- Review container with no extractable field at all, used to exercise
the rating invariant at a concrete input. -/
def emptyReviewItem : Node := .elem "div" [("class", "imdb-user-review")] .nil

/-- Record the extractor produces for `emptyReviewItem`. -/
def emptyRecord : IMDbUserReview :=
  { review_id := none, review_date := none, review_title := none
    title_id := "tt0000001", title_name := none, title_relative_url := none
    total_feedback := none, helpful_feedback := none, maximum_rating := none
    user_rating := none, has_spoilers := false, user_name := none
    user_relative_url := none, content := none }

/-- Witness for C2 at a concrete container. -/
theorem c2_rating_null_iff_produced_witness :
    (emptyRecord.user_rating = none ↔ emptyRecord.maximum_rating = none) :=
  c2_rating_null_iff_produced "C" "tt0000001" none none false emptyReviewItem
    emptyRecord "C" (by rfl)

/-- Review container whose rating area holds only the `/10` point-scale
node, with no preceding user-score sibling. -/
def loneMaxRatingItem : Node :=
  .elem "div"
    [("class", "lister-item imdb-user-review"), ("data-review-id", "rv002")]
    (nodesOf [.elem "span" [("class", "point-scale")] (nodesOf [.text "/10"])])

/-- C3: on a container whose rating area has only the `/10` node and no
preceding user-score node, the extractor does not produce a record with
both ratings null — it raises `AttributeError`, because `getprevious()`
returns `None` and the source reads `.text` on it (line 220) before the
clear-both step can run. -/
theorem c3_lone_point_scale_raises :
    (parse_raw_item_to_imdb_user_review "C" "tt0000001" none none false
        loneMaxRatingItem).1 = .error "AttributeError" := by rfl

/-- Review container whose review-date text does not parse as a day,
month name and year. -/
def unparsableDateItem : Node :=
  .elem "div" [("class", "imdb-user-review"), ("data-review-id", "rv004")]
    (nodesOf [.elem "span" [("class", "review-date")]
      (nodesOf [.text "sometime in 2020"])])

/-- C4 counterexample: a present but unparsable review-date text makes
the extractor raise `ValueError` (`strptime` at source lines 155-157 is
not guarded), instead of leaving `review_date` null. -/
theorem c4_unparsable_date_raises_instance :
    (parse_raw_item_to_imdb_user_review "en_US.UTF-8" "tt0000001" none none
        false unparsableDateItem).1 = .error "ValueError" := by rfl

/-- C4 amended: whenever the review-date text node is present but its
text does not parse as `%d %B %Y`, the extractor raises `ValueError` and
produces no record; `review_date` stays null only when the node is
absent. -/
theorem c4_unparsable_date_raises_generally (lc_time title_id : String)
    (title_name title_relative_url : Option String) (single : Bool)
    (item : Node) (s : String) (rest : List String)
    (hq : xpathTexts (builderPred "span" "class" "review-date") item = s :: rest)
    (hp : strptime_d_B_Y (pyStrip s) = none) :
    (parse_raw_item_to_imdb_user_review lc_time title_id title_name
        title_relative_url single item).1 = .error "ValueError" := by
  simp [parse_raw_item_to_imdb_user_review, date_step, hq, hp]

/-- Witness for the amended C4 at a concrete container. -/
theorem c4_unparsable_date_raises_generally_witness :
    xpathTexts (builderPred "span" "class" "review-date") unparsableDateItem
      = ["sometime in 2020"]
    ∧ strptime_d_B_Y (pyStrip "sometime in 2020") = none
    ∧ (parse_raw_item_to_imdb_user_review "C" "tt0000001" none none false
        unparsableDateItem).1 = .error "ValueError" :=
  ⟨rfl, rfl,
   c4_unparsable_date_raises_generally "C" "tt0000001" none none false
     unparsableDateItem "sometime in 2020" [] rfl rfl⟩

/-- Review container whose review-date text is unparsable, placed first
on a page. -/
def badDateReviewItem : Node :=
  .elem "div" [("class", "imdb-user-review"), ("data-review-id", "rv005")]
    (nodesOf [.elem "span" [("class", "review-date")]
      (nodesOf [.text "bad date text"])])

/-- Intact sibling review container following the malformed one. -/
def siblingReviewItem : Node :=
  .elem "div" [("class", "imdb-user-review"), ("data-review-id", "rv006")] .nil

/-- Page holding a malformed review container followed by an intact
sibling container. -/
def mixedReviewsDocument : Node :=
  .elem "html" [] (nodesOf [.elem "body" []
    (nodesOf [badDateReviewItem, siblingReviewItem])])

/-- C5 counterexample: on a page whose first review container carries an
unparsable date, the page parser raises (`ValueError` propagates out of
the unguarded review loop, source lines 335-344) and the intact sibling
container yields nothing — the parser does not degrade to a partial
record set. -/
theorem c5_page_parse_raises_instance :
    (parse_raw_html_to_imdb_user_review_set_and_more_data "C" "tt0000001"
        (some "Some Title") (some "/title/tt0000001/") false
        mixedReviewsDocument).1 = .error "ValueError" := by rfl

/-- C5 amended: a field-extraction exception in a review is not isolated:
whenever the first review container's extraction raises, the whole page
parse raises that same exception and no sibling content is extracted.
(Stated for a page whose title data is already known, so the title
discovery block is skipped as in the source.) -/
theorem c5_item_error_aborts_page (lc_time title_id : String)
    (title_name title_relative_url : Option String) (single : Bool)
    (root d : Node) (ds : List Node) (e lc' : String)
    (htitle : ¬(truthyOpt title_name = none ∧ truthyOpt title_relative_url = none))
    (hitems : (Node.findMatches (builderPred "div" "class" "imdb-user-review")
        root).map (fun pr => pr.2) = d :: ds)
    (hfail : parse_raw_item_to_imdb_user_review lc_time title_id title_name
        title_relative_url single d = (.error e, lc')) :
    (parse_raw_html_to_imdb_user_review_set_and_more_data lc_time title_id
        title_name title_relative_url single root).1 = .error e := by
  unfold parse_raw_html_to_imdb_user_review_set_and_more_data title_step
  rw [if_neg htitle, hitems]
  simp only [parse_items, hfail]

/-- Witness for the amended C5 at a concrete page. -/
theorem c5_item_error_aborts_page_witness :
    ¬(truthyOpt (some "Some Title") = none
        ∧ truthyOpt (some "/title/tt0000001/") = none)
    ∧ (Node.findMatches (builderPred "div" "class" "imdb-user-review")
        mixedReviewsDocument).map (fun pr => pr.2)
      = [badDateReviewItem, siblingReviewItem]
    ∧ parse_raw_item_to_imdb_user_review "C" "tt0000001" (some "Some Title")
        (some "/title/tt0000001/") false badDateReviewItem
      = (.error "ValueError", "C")
    ∧ (parse_raw_html_to_imdb_user_review_set_and_more_data "C" "tt0000001"
        (some "Some Title") (some "/title/tt0000001/") false
        mixedReviewsDocument).1 = .error "ValueError" :=
  ⟨by simp [truthyOpt], rfl, rfl,
   c5_item_error_aborts_page "C" "tt0000001" (some "Some Title")
     (some "/title/tt0000001/") false mixedReviewsDocument badDateReviewItem
     [siblingReviewItem] "ValueError" "C" (by simp [truthyOpt]) rfl rfl⟩

/-- C6: a response whose status lies in 400-599 makes the driver stop at
once: it issues no further request (the remaining script is untouched and
only the one URL was requested), raises nothing, and returns exactly the
review set accumulated from the earlier pages. -/
theorem c6_http_error_stops (title_id : String) (single : Bool)
    (st : CrawlState) (resp : Response) (rest : List Response)
    (h4 : 400 ≤ resp.status_code) (h6 : resp.status_code < 600) :
    crawl_loop title_id single st (resp :: rest)
      = ([st.current_url], .done st.user_review_set) := by
  unfold crawl_loop
  rw [if_pos ⟨h4, h6⟩]

/-- Crawl state after a first page that contributed the scenario record,
ready to request the second page. -/
def c6State : CrawlState :=
  { user_review_set := [scenarioRecord]
    title_name := some "Some Title"
    title_relative_url := some "/title/tt0000001/"
    load_more_data_base_url := none
    current_url :=
      BASE_IMDB_URL.with_path (relative_imdb_user_reviews_url "tt0000001")
    lc_time := "C" }

/-- Witness for C6: a 404 on the second page returns exactly the records
collected from page one. -/
theorem c6_http_error_stops_witness :
    400 ≤ 404 ∧ 404 < 600
    ∧ crawl_loop "tt0000001" false c6State [⟨404, .elem "html" [] .nil⟩]
      = ([c6State.current_url], .done c6State.user_review_set) :=
  ⟨by decide, by decide,
   c6_http_error_stops "tt0000001" false c6State ⟨404, .elem "html" [] .nil⟩ []
     (by decide) (by decide)⟩

/-- Page exposing a continuation marker with key `abc123` and ajax path
`/title/tt1/_ajax`. -/
def continuationPage : Node :=
  .elem "html" [] (nodesOf [.elem "body" [] (nodesOf
    [.elem "div"
      [("class", "load-more-data"), ("data-key", "abc123"),
       ("data-ajaxurl", "/title/tt1/_ajax")] .nil])])

/-- C7: after a page exposing continuation key `abc123` and ajax path
`/title/tt1/_ajax`, the driver's next request URL is the base host joined
with the learned ajax path, carrying exactly the fixed marker parameter
`ref_=undefined` and `paginationKey=abc123`. -/
theorem c7_continuation_url :
    crawl_imdb_user_reviews_by_title_id "tt1" false "C" [⟨200, continuationPage⟩]
      = ([{ host := "www.imdb.com", path := "/title/tt1/reviews", query := [] }],
         .pending []
           { host := "www.imdb.com", path := "/title/tt1/_ajax",
             query := [("ref_", "undefined"), ("paginationKey", "abc123")] }) := by
  rfl

/-- First page of the C8 run: continuation marker with both data
attributes, from which the driver learns the ajax base path. -/
def firstAjaxPage : Node :=
  .elem "html" [] (nodesOf [.elem "body" [] (nodesOf
    [.elem "div"
      [("class", "load-more-data"), ("data-key", "k1"),
       ("data-ajaxurl", "/title/tt1/_ajax")] .nil])])

/-- Second page of the C8 run: the load-more marker carries only the
continuation key and no ajax path. -/
def keyOnlyMarkerPage : Node :=
  .elem "html" [] (nodesOf [.elem "body" [] (nodesOf
    [.elem "div" [("class", "load-more-data"), ("data-key", "k2")] .nil])])

/-- C8 counterexample: for a page whose marker lacks the `data-ajaxurl`
attribute the page parser still reports the continuation key (not "no
continuation"), and when the ajax base path was learned from an earlier
page, pagination does not end at that page — the driver builds a next
request URL with the new key. -/
theorem c8_missing_ajaxurl_still_continues :
    (parse_raw_html_to_imdb_user_review_set_and_more_data "C" "tt1" none none
        false keyOnlyMarkerPage).1 = .ok ([], ⟨none, none⟩, ⟨some "k2", none⟩)
    ∧ crawl_imdb_user_reviews_by_title_id "tt1" false "C"
        [⟨200, firstAjaxPage⟩, ⟨200, keyOnlyMarkerPage⟩]
      = ([{ host := "www.imdb.com", path := "/title/tt1/reviews", query := [] },
          { host := "www.imdb.com", path := "/title/tt1/_ajax",
            query := [("ref_", "undefined"), ("paginationKey", "k1")] }],
         .pending []
           { host := "www.imdb.com", path := "/title/tt1/_ajax",
             query := [("ref_", "undefined"), ("paginationKey", "k2")] }) :=
  ⟨rfl, rfl⟩

/-- C8 amended: pagination ends at a fetched page exactly in these
missing-attribute situations: the parsed marker offers no truthy
continuation key, or it offers no truthy ajax path while no ajax base
path was learned from an earlier page. In either case the driver makes no
further request and returns the merged set. -/
theorem c8_missing_key_or_unlearned_base_stops (title_id : String)
    (single : Bool) (st : CrawlState) (resp : Response) (rest : List Response)
    (revs : List IMDbUserReview) (td : TitleData) (md : MoreData) (lc' : String)
    (hstatus : ¬(400 ≤ resp.status_code ∧ resp.status_code < 600))
    (hparse : parse_raw_html_to_imdb_user_review_set_and_more_data st.lc_time
        title_id st.title_name st.title_relative_url single resp.document
      = (.ok (revs, td, md), lc'))
    (hmiss : truthyOpt md.data_key = none
      ∨ (truthyOpt md.data_ajaxurl = none ∧ st.load_more_data_base_url = none)) :
    crawl_loop title_id single st (resp :: rest)
      = ([st.current_url], .done (pySetUnion st.user_review_set revs)) := by
  unfold crawl_loop
  rw [if_neg hstatus, hparse]
  dsimp only
  obtain ⟨k, a⟩ := md
  rcases k with _ | kv
  · rcases a with _ | av
    · rfl
    · rfl
  · rcases hmiss with hk | ⟨ha, hb⟩
    · simp only at hk
      rcases a with _ | av <;> simp [hk]
    · simp only at ha hb
      rcases a with _ | av
      · rcases htk : truthyOpt (some kv) with _ | dk
        · simp [htk]
        · simp [htk, hb, show truthyOpt (none : Option String) = none from rfl]
      · rcases htk : truthyOpt (some kv) with _ | dk
        · simp [htk]
        · simp [htk, ha, hb]

/-- Fresh crawl state for the title `tt1`, before any page was fetched
(no ajax base path learned yet). -/
def c8State : CrawlState :=
  { user_review_set := []
    title_name := none
    title_relative_url := none
    load_more_data_base_url := none
    current_url := BASE_IMDB_URL.with_path (relative_imdb_user_reviews_url "tt1")
    lc_time := "C" }

/-- Witness for the amended C8: with no learned base path, a page whose
marker lacks the ajax path ends pagination. -/
theorem c8_missing_key_or_unlearned_base_stops_witness :
    ¬(400 ≤ 200 ∧ 200 < 600)
    ∧ crawl_loop "tt1" false c8State [⟨200, keyOnlyMarkerPage⟩]
      = ([c8State.current_url], .done (pySetUnion c8State.user_review_set [])) := by
  have hparse : parse_raw_html_to_imdb_user_review_set_and_more_data
      c8State.lc_time "tt1" c8State.title_name c8State.title_relative_url false
      keyOnlyMarkerPage
      = (.ok ([], (⟨none, none⟩ : TitleData), (⟨some "k2", none⟩ : MoreData)),
         "C") := by rfl
  refine ⟨by decide, ?_⟩
  exact c8_missing_key_or_unlearned_base_stops "tt1" false c8State
    ⟨200, keyOnlyMarkerPage⟩ [] [] ⟨none, none⟩ ⟨some "k2", none⟩ "C"
    (by decide) hparse (Or.inr ⟨rfl, rfl⟩)

/-- C9 counterexample: extracting the well-formed scenario container in a
process whose `LC_TIME` locale is `en_US.UTF-8` leaves the locale set to
`"C"` — the extractor writes process-wide state, so it is not a pure
function of its arguments alone. -/
theorem c9_locale_is_written :
    (parse_raw_item_to_imdb_user_review "en_US.UTF-8" "tt0000001"
        (some "Some Title") (some "/title/tt0000001/") false
        scenarioReviewItem).2 = "C"
    ∧ ("C" : String) ≠ "en_US.UTF-8" :=
  ⟨rfl, by decide⟩

/-- C9 amended: the extractor's result (record or exception) never
depends on the incoming locale state, so equal inputs yield equal
records; but whenever a review-date text node is present it sets the
process `LC_TIME` locale to `"C"`, and it leaves the locale untouched
otherwise. -/
theorem c9_locale_threading (lc₁ lc₂ title_id : String)
    (title_name title_relative_url : Option String) (single : Bool)
    (item : Node) :
    (parse_raw_item_to_imdb_user_review lc₁ title_id title_name
        title_relative_url single item).1
      = (parse_raw_item_to_imdb_user_review lc₂ title_id title_name
          title_relative_url single item).1
    ∧ (parse_raw_item_to_imdb_user_review lc₁ title_id title_name
        title_relative_url single item).2
      = (match xpathTexts (builderPred "span" "class" "review-date") item with
         | [] => lc₁
         | _ :: _ => "C") := by
  constructor
  · show (match (date_step lc₁ item).1 with
      | Except.error e => Except.error e
      | Except.ok review_date =>
        item_rest_step review_date title_id title_name title_relative_url
          single item)
      = (parse_raw_item_to_imdb_user_review lc₂ title_id title_name
          title_relative_url single item).1
    rw [date_step_locale_free lc₁ lc₂ item]
    rfl
  · show (date_step lc₁ item).2 = _
    exact date_step_locale_write lc₁ item

/-- Review container whose `data-review-id` attribute is present but
empty. -/
def emptyIdReviewItem : Node :=
  .elem "div" [("class", "imdb-user-review"), ("data-review-id", "")] .nil

/-- Record the extractor produces for `emptyIdReviewItem`: the empty
attribute is treated as absent. -/
def emptyIdRecord : IMDbUserReview :=
  { review_id := none, review_date := none, review_title := none
    title_id := "tt0000001", title_name := none, title_relative_url := none
    total_feedback := none, helpful_feedback := none, maximum_rating := none
    user_rating := none, has_spoilers := false, user_name := none
    user_relative_url := none, content := none }

/-- Page whose load-more marker carries an empty `data-key` value next to
a present ajax path. -/
def emptyKeyMarkerPage : Node :=
  .elem "html" [] (nodesOf [.elem "body" [] (nodesOf
    [.elem "div"
      [("class", "load-more-data"), ("data-key", ""),
       ("data-ajaxurl", "/title/tt1/_ajax")] .nil])])

/-- C10: present-but-empty attribute values are treated as absent: a
container whose `data-review-id` is the empty string yields a record with
`review_id = none` (not `some ""`), and a load-more marker whose
`data-key` is empty offers no continuation key, so the crawl ends at that
page after the one request. -/
theorem c10_empty_attribute_values :
    (parse_raw_item_to_imdb_user_review "C" "tt0000001" none none false
        emptyIdReviewItem).1 = .ok emptyIdRecord
    ∧ emptyIdRecord.review_id = none
    ∧ (parse_raw_html_to_imdb_user_review_set_and_more_data "C" "tt1" none none
        false emptyKeyMarkerPage).1
      = .ok ([], ⟨none, none⟩, ⟨none, some "/title/tt1/_ajax"⟩)
    ∧ crawl_imdb_user_reviews_by_title_id "tt1" false "C"
        [⟨200, emptyKeyMarkerPage⟩]
      = ([{ host := "www.imdb.com", path := "/title/tt1/reviews", query := [] }],
         .done []) :=
  ⟨rfl, rfl, rfl, rfl⟩
